import Mathlib

/-!
Shallow embedding of the generic typed-client layer of
`src/staging/src/k8s.io/client-go/gentype2/type.go` (package `gentype2`),
of the legacy generic client in `src/unnamed/part_000` (package `generic`),
and of the fake-client list path, for verification of the specification's
claims.

Modelling conventions:
* The REST request builder (`rest.Interface`, an external collaborator) is
  modelled as a record `Request` accumulated by builder functions mirroring
  the fluent methods used in the source (`UseProtobufAsDefaultIfPreferred`,
  `NamespaceIfScoped`, `Resource`, `Name`, `SubResource`, `VersionedParams`,
  `Timeout`, `Body`).  The terminal call (`Do` / `Watch` / `WatchList`) is
  recorded in the request's `mode` field.
* The transport (execution + decoding) is an abstract parameter
  `Request alpha -> Except GoError R`; `Result.Into` semantics are: on
  success the freshly allocated target is replaced by the decoded value, on
  error the target is left untouched (the fresh zero value) and the error
  is returned.
* Go's `new(T)` zero value is modelled by `(default : T)` from `Inhabited`.
* `time.Duration` is an `Int` counting nanoseconds, with 64-bit wrapping on
  multiplication, `time.Second = 1000000000`.
* Each verb returns an `Outcome` that also records the list of requests
  actually handed to the transport, so that "no request is issued" and
  "this request is built" are statable.
-/

/-- A Go `error` value, carrying its message (as produced by `fmt.Errorf`). -/
structure GoError where
  msg : String
deriving DecidableEq, Repr

/-- metav1.GetOptions (external data shape used by the client). -/
structure GetOptions where
  resourceVersion : String := ""
deriving DecidableEq, Repr

/-- metav1.ListOptions (external data shape used by the client).
`timeoutSeconds` models the `*int64` field `TimeoutSeconds`. -/
structure ListOptions where
  labelSelector : String := ""
  fieldSelector : String := ""
  watch : Bool := false
  allowWatchBookmarks : Bool := false
  resourceVersion : String := ""
  resourceVersionMatch : String := ""
  timeoutSeconds : Option Int := none
  limit : Int := 0
  continueToken : String := ""
  sendInitialEvents : Option Bool := none
deriving DecidableEq, Repr

/-- metav1.CreateOptions (external data shape used by the client). -/
structure CreateOptions where
  dryRun : List String := []
  fieldManager : String := ""
  fieldValidation : String := ""
deriving DecidableEq, Repr

/-- metav1.UpdateOptions (external data shape used by the client). -/
structure UpdateOptions where
  dryRun : List String := []
  fieldManager : String := ""
  fieldValidation : String := ""
deriving DecidableEq, Repr

/-- metav1.PatchOptions (external data shape used by the client). -/
structure PatchOptions where
  dryRun : List String := []
  force : Option Bool := none
  fieldManager : String := ""
  fieldValidation : String := ""
deriving DecidableEq, Repr

/-- metav1.DeleteOptions (external data shape used by the client). -/
structure DeleteOptions where
  gracePeriodSeconds : Option Int := none
  propagationPolicy : Option String := none
  dryRun : List String := []
deriving DecidableEq, Repr

/-- metav1.ApplyOptions (external data shape used by the client). -/
structure ApplyOptions where
  dryRun : List String := []
  force : Bool := false
  fieldManager : String := ""
deriving DecidableEq, Repr

/-- Modelled from the spec: `metav1.ApplyOptions.ToPatchOptions` is not under
`src/`; the spec says "options are converted from ApplyOptions to the generic
PatchOptions shape before transmission" — the conversion carries dry-run,
force and field manager over. -/
def ApplyOptions.toPatchOptions (o : ApplyOptions) : PatchOptions :=
  { dryRun := o.dryRun, force := some o.force, fieldManager := o.fieldManager }

/-- types.PatchType: the enumerated patch kinds, including the distinguished
apply patch type used by server-side apply. -/
inductive PatchType where
  | JSONPatchType
  | MergePatchType
  | StrategicMergePatchType
  | ApplyPatchType
deriving DecidableEq, Repr

/-- The HTTP verb selected by the initial builder call on `rest.Interface`. -/
inductive Verb where
  | get
  | post
  | put
  | delete
  | patch (pt : PatchType)
deriving DecidableEq, Repr

/-- The versioned query parameters attached via `VersionedParams` (the
parameter codec itself is an external collaborator; we record which options
value was encoded). -/
inductive Params where
  | noParams
  | get (o : GetOptions)
  | list (o : ListOptions)
  | create (o : CreateOptions)
  | update (o : UpdateOptions)
  | patch (o : PatchOptions)
deriving DecidableEq, Repr

/-- The request body, if any; `alpha` is the input-object type. -/
inductive BodyVal (alpha : Type) where
  | noBody
  | obj (o : alpha)
  | deleteOpts (o : DeleteOptions)
  | bytes (data : List Nat)
deriving DecidableEq, Repr

/-- The terminal execution mode of a request chain: `Do`, `Watch`, or
`WatchList`. -/
inductive ReqMode where
  | doCall
  | watchCall
  | watchListCall
deriving DecidableEq, Repr

/-- A fully built REST request, as accumulated by the fluent builder. -/
structure Request (alpha : Type) where
  verb : Verb
  useProtobufAsDefault : Bool := false
  ns : Option String := none
  resource : String := ""
  name : Option String := none
  subresources : List String := []
  params : Params := .noParams
  timeout : Int := 0
  body : BodyVal alpha := .noBody
  mode : ReqMode := .doCall
deriving DecidableEq, Repr

/-- Builder entry point `client.Get()`. -/
def restGet {alpha : Type} : Request alpha := { verb := .get }

/-- Builder entry point `client.Post()`. -/
def restPost {alpha : Type} : Request alpha := { verb := .post }

/-- Builder entry point `client.Put()`. -/
def restPut {alpha : Type} : Request alpha := { verb := .put }

/-- Builder entry point `client.Delete()`. -/
def restDelete {alpha : Type} : Request alpha := { verb := .delete }

/-- Builder entry point `client.Patch(pt)`. -/
def restPatch {alpha : Type} (pt : PatchType) : Request alpha := { verb := .patch pt }

/-- Builder method `UseProtobufAsDefaultIfPreferred`. -/
def Request.UseProtobufAsDefaultIfPreferred {alpha : Type} (r : Request alpha) (b : Bool) :
    Request alpha :=
  { r with useProtobufAsDefault := b }

/-- Builder method `NamespaceIfScoped(namespace, scoped)`. -/
def Request.NamespaceIfScoped {alpha : Type} (r : Request alpha) (namespaceArg : String)
    (isScoped : Bool) : Request alpha :=
  { r with ns := if isScoped then some namespaceArg else r.ns }

/-- Builder method `Resource`. -/
def Request.Resource {alpha : Type} (r : Request alpha) (res : String) : Request alpha :=
  { r with resource := res }

/-- Builder method `Name`. -/
def Request.Name {alpha : Type} (r : Request alpha) (n : String) : Request alpha :=
  { r with name := some n }

/-- Builder method `SubResource(subresources...)`. -/
def Request.SubResource {alpha : Type} (r : Request alpha) (s : List String) : Request alpha :=
  { r with subresources := s }

/-- Builder method `VersionedParams(&opts, codec)` (the codec is external;
we record the options value passed). -/
def Request.VersionedParams {alpha : Type} (r : Request alpha) (p : Params) : Request alpha :=
  { r with params := p }

/-- Builder method `Timeout`. -/
def Request.Timeout {alpha : Type} (r : Request alpha) (t : Int) : Request alpha :=
  { r with timeout := t }

/-- Builder method `Body(obj)` for an input object. -/
def Request.BodyObj {alpha : Type} (r : Request alpha) (o : alpha) : Request alpha :=
  { r with body := .obj o }

/-- Builder method `Body(&opts)` for delete options. -/
def Request.BodyDeleteOptions {alpha : Type} (r : Request alpha) (o : DeleteOptions) :
    Request alpha :=
  { r with body := .deleteOpts o }

/-- Builder method `Body(data)` for a raw byte payload. -/
def Request.BodyBytes {alpha : Type} (r : Request alpha) (data : List Nat) : Request alpha :=
  { r with body := .bytes data }

/-- Terminal call `Watch(ctx)`: marks the request as a watch stream. -/
def Request.WatchMode {alpha : Type} (r : Request alpha) : Request alpha :=
  { r with mode := .watchCall }

/-- Terminal call `WatchList(ctx)`: marks the request as a watch-list stream. -/
def Request.WatchListMode {alpha : Type} (r : Request alpha) : Request alpha :=
  { r with mode := .watchListCall }

/-- Wrap an integer into the range of Go's signed 64-bit `int64`. -/
def int64Wrap (x : Int) : Int :=
  (x + 2 ^ 63) % 2 ^ 64 - 2 ^ 63

/-- Go's `time.Second` in nanoseconds. -/
def oneSecond : Int := 1000000000

/-- The timeout derivation shared by the list-family verbs:
`var timeout time.Duration; if opts.TimeoutSeconds != nil {
timeout = time.Duration(*opts.TimeoutSeconds) * time.Second }`. -/
def toDuration : Option Int → Int
  | none => 0
  | some n => int64Wrap (n * oneSecond)

/-- UntypedClient from gentype2: immutable request coordinates.  The
`rest.Interface` handle and the parameter codec are external collaborators,
passed to each verb as the abstract transport. -/
structure UntypedClient where
  resource : String
  ns : String
  prefersProtobuf : Bool := false
deriving DecidableEq, Repr

/-- The outcome of a verb call: the returned object, the returned error, and
the requests actually handed to the transport (in order). -/
structure Outcome (alpha R : Type) where
  result : R
  err : Option GoError
  issued : List (Request alpha)
deriving DecidableEq, Repr

/-- Semantics of `.Do(ctx).Into(result)` (and of `.WatchList(ctx).Into`):
execute the request through the transport; on success the decoded value
replaces the fresh target, on error the fresh target is returned untouched
together with the error. -/
def runInto {alpha R : Type} (transport : Request alpha → Except GoError R)
    (req : Request alpha) (fresh : R) : Outcome alpha R :=
  match transport req with
  | .ok v => ⟨v, none, [req]⟩
  | .error e => ⟨fresh, some e, [req]⟩

/-- Models gentype2.GetSubresource: GET on
resource/namespace/parentName/subresources, decoding into a fresh zero
value. -/
def GetSubresource {alpha S : Type} [Inhabited S] (c : UntypedClient)
    (transport : Request alpha → Except GoError S) (parentName : String)
    (options : GetOptions) (subresources : List String) : Outcome alpha S :=
  let result : S := default
  let req :=
    ((((((restGet.UseProtobufAsDefaultIfPreferred c.prefersProtobuf).NamespaceIfScoped
      c.ns (c.ns != "")).Resource c.resource).Name parentName).SubResource
      subresources).VersionedParams (.get options))
  runInto transport req result

/-- Models gentype2.Get: delegates to GetSubresource with no subresources. -/
def Get {alpha S : Type} [Inhabited S] (c : UntypedClient)
    (transport : Request alpha → Except GoError S) (name : String)
    (options : GetOptions) : Outcome alpha S :=
  GetSubresource c transport name options []

/-- Models gentype2.list (the plain standard-list request). -/
def list {alpha L : Type} [Inhabited L] (c : UntypedClient)
    (transport : Request alpha → Except GoError L) (opts : ListOptions) :
    Outcome alpha L :=
  let l : L := default
  let timeout := toDuration opts.timeoutSeconds
  let req :=
    (((((restGet.UseProtobufAsDefaultIfPreferred c.prefersProtobuf).NamespaceIfScoped
      c.ns (c.ns != "")).Resource c.resource).VersionedParams
      (.list opts)).Timeout timeout)
  runInto transport req l

/-- Models gentype2.watchList: same request coordinates as list but executed
through the `WatchList(ctx)` terminal. -/
def watchList {alpha L : Type} [Inhabited L] (c : UntypedClient)
    (transport : Request alpha → Except GoError L) (opts : ListOptions) :
    Outcome alpha L :=
  let timeout := toDuration opts.timeoutSeconds
  let result : L := default
  let req :=
    ((((((restGet.UseProtobufAsDefaultIfPreferred c.prefersProtobuf).NamespaceIfScoped
      c.ns (c.ns != "")).Resource c.resource).VersionedParams
      (.list opts)).Timeout timeout).WatchListMode)
  runInto transport req result

/-- Models the shared fall-through tail of gentype2.List (step 4 of the
spec's algorithm): issue the plain list request and, on success, hand the
result to the consistency-detector collaborator `checkList` (whose result
is discarded — fire-and-forget). -/
def listThenCheck {alpha L del : Type} [Inhabited L] (c : UntypedClient)
    (transport : Request alpha → Except GoError L)
    (checkList : String → (ListOptions → Outcome alpha L) → ListOptions → L → del)
    (opts : ListOptions) : Outcome alpha L :=
  let listFunc : ListOptions → Outcome alpha L := fun o => list c transport o
  let r := list c transport opts
  match r.err with
  | none =>
    let _ := checkList ("list request for " ++ c.resource) listFunc opts r.result
    r
  | some _ => r

/-- Models gentype2.List, the watch-list/fallback orchestration.
`prepare` models `watchlist.PrepareWatchListOptionsFromListOptions`
(external), returning `(watchListOptions, hasWatchListOptionsPrepared,
watchListOptionsErr)`.  `checkWatchList` and `checkList` model the
consistency-detector collaborators
`CheckWatchListFromCacheDataConsistencyIfRequested` and
`CheckListFromCacheDataConsistencyIfRequested`; their results are discarded
(fire-and-forget).  The shared fall-through tail of the source (steps 3–4
of the spec's algorithm) is `listThenCheck`; on the path where the
watch-list request was issued and failed, its request is prepended to the
issued trace. -/
def ListVerb {alpha L gam del : Type} [Inhabited L] (c : UntypedClient)
    (transport : Request alpha → Except GoError L)
    (prepare : ListOptions → ListOptions × Bool × Option GoError)
    (checkWatchList : String → (ListOptions → Outcome alpha L) → ListOptions → L → gam)
    (checkList : String → (ListOptions → Outcome alpha L) → ListOptions → L → del)
    (opts : ListOptions) : Outcome alpha L :=
  let listFunc : ListOptions → Outcome alpha L := fun o => list c transport o
  match prepare opts with
  | (_, _, some _) => listThenCheck c transport checkList opts
  | (watchListOptions, true, none) =>
    let w := watchList c transport watchListOptions
    match w.err with
    | none =>
      let _ := checkWatchList ("watchlist request for " ++ c.resource) listFunc opts w.result
      w
    | some _ =>
      let r := listThenCheck c transport checkList opts
      { r with issued := w.issued ++ r.issued }
  | (_, false, none) => listThenCheck c transport checkList opts

/-- Models gentype2.ListSubresource: GET on
resource/namespace/parentName/subresources with list options and timeout. -/
def ListSubresource {alpha L : Type} [Inhabited L] (c : UntypedClient)
    (transport : Request alpha → Except GoError L) (parentName : String)
    (opts : ListOptions) (subresources : List String) : Outcome alpha L :=
  let timeout := toDuration opts.timeoutSeconds
  let result : L := default
  let req :=
    (((((((restGet.UseProtobufAsDefaultIfPreferred c.prefersProtobuf).NamespaceIfScoped
      c.ns (c.ns != "")).Resource c.resource).Name parentName).SubResource
      subresources).VersionedParams (.list opts)).Timeout timeout)
  runInto transport req result

/-- Models Client.Watch from gentype2: forces the watch flag on, derives the
timeout from TimeoutSeconds, and executes through the `Watch(ctx)` terminal.
`W` is the type of the returned event-stream handle (external). -/
def Watch {alpha W : Type} (c : UntypedClient)
    (transport : Request alpha → Except GoError W) (opts : ListOptions) :
    Except GoError W × List (Request alpha) :=
  let timeout := toDuration opts.timeoutSeconds
  let opts := { opts with watch := true }
  let req :=
    ((((((restGet.UseProtobufAsDefaultIfPreferred c.prefersProtobuf).NamespaceIfScoped
      c.ns (c.ns != "")).Resource c.resource).VersionedParams
      (.list opts)).Timeout timeout).WatchMode)
  (transport req, [req])

/-- Models gentype2.Create: POST with the input object as body, no name in
the path. -/
def Create {alpha R : Type} [Inhabited R] (c : UntypedClient)
    (transport : Request alpha → Except GoError R) (obj : alpha)
    (opts : CreateOptions) : Outcome alpha R :=
  let result : R := default
  let req :=
    (((((restPost.UseProtobufAsDefaultIfPreferred c.prefersProtobuf).NamespaceIfScoped
      c.ns (c.ns != "")).Resource c.resource).VersionedParams
      (.create opts)).BodyObj obj)
  runInto transport req result

/-- Models gentype2.CreateSubresource: POST under
resource/namespace/parentName/subresources with the input object as body. -/
def CreateSubresource {alpha S : Type} [Inhabited S] (c : UntypedClient)
    (transport : Request alpha → Except GoError S) (parentName : String)
    (obj : alpha) (opts : CreateOptions) (subresources : List String) :
    Outcome alpha S :=
  let result : S := default
  let req :=
    (((((((restPost.UseProtobufAsDefaultIfPreferred c.prefersProtobuf).NamespaceIfScoped
      c.ns (c.ns != "")).Resource c.resource).Name parentName).SubResource
      subresources).VersionedParams (.create opts)).BodyObj obj)
  runInto transport req result

/-- Models gentype2.UpdateSubresource: PUT under
resource/namespace/parentName/subresources with the input object as body. -/
def UpdateSubresource {alpha S : Type} [Inhabited S] (c : UntypedClient)
    (transport : Request alpha → Except GoError S) (parentName : String)
    (obj : alpha) (opts : UpdateOptions) (subresources : List String) :
    Outcome alpha S :=
  let result : S := default
  let req :=
    (((((((restPut.UseProtobufAsDefaultIfPreferred c.prefersProtobuf).NamespaceIfScoped
      c.ns (c.ns != "")).Resource c.resource).Name parentName).SubResource
      subresources).VersionedParams (.update opts)).BodyObj obj)
  runInto transport req result

/-- Models gentype2.Update: PUT named after the object's own GetName()
accessor (modelled by the `getName` parameter, from the namedRuntimeObject
constraint), delegating to UpdateSubresource with no subresources. -/
def Update {alpha R : Type} [Inhabited R] (c : UntypedClient)
    (transport : Request alpha → Except GoError R) (getName : alpha → String)
    (obj : alpha) (opts : UpdateOptions) : Outcome alpha R :=
  UpdateSubresource c transport (getName obj) obj opts []

/-- Models gentype2.UpdateStatus: PUT on the "status" subresource, named
after the object's own GetName() accessor.  The result type is the parent
resource's type `alpha` — the same type as the input object (in the source,
`UpdateStatus[PR namedRuntimeObject[R], R any]` both consumes and returns
`PR`), not a status-only type. -/
def UpdateStatus {alpha : Type} [Inhabited alpha] (c : UntypedClient)
    (transport : Request alpha → Except GoError alpha) (getName : alpha → String)
    (obj : alpha) (opts : UpdateOptions) : Outcome alpha alpha :=
  UpdateSubresource c transport (getName obj) obj opts ["status"]

/-- Models gentype2.Delete: DELETE by name with the delete options as body;
returns only an error.  The transport here models `.Do(ctx).Error()`. -/
def Delete {alpha : Type} (c : UntypedClient)
    (transport : Request alpha → Option GoError) (name : String)
    (opts : DeleteOptions) : Option GoError × List (Request alpha) :=
  let req :=
    (((((restDelete.UseProtobufAsDefaultIfPreferred c.prefersProtobuf).NamespaceIfScoped
      c.ns (c.ns != "")).Resource c.resource).Name name).BodyDeleteOptions opts)
  (transport req, [req])

/-- Models gentype2.DeleteCollection: DELETE without a name, carrying the
list options as versioned parameters, the timeout derived from
`listOpts.TimeoutSeconds`, and the delete options as body. -/
def DeleteCollection {alpha : Type} (c : UntypedClient)
    (transport : Request alpha → Option GoError) (opts : DeleteOptions)
    (listOpts : ListOptions) : Option GoError × List (Request alpha) :=
  let timeout := toDuration listOpts.timeoutSeconds
  let req :=
    ((((((restDelete.UseProtobufAsDefaultIfPreferred c.prefersProtobuf).NamespaceIfScoped
      c.ns (c.ns != "")).Resource c.resource).VersionedParams
      (.list listOpts)).Timeout timeout).BodyDeleteOptions opts)
  (transport req, [req])

/-- Models gentype2.Patch: PATCH of the given patch type on a named
resource, optionally targeting nested subresources, with the raw payload as
body. -/
def Patch {alpha R : Type} [Inhabited R] (c : UntypedClient)
    (transport : Request alpha → Except GoError R) (name : String)
    (pt : PatchType) (data : List Nat) (opts : PatchOptions)
    (subresources : List String) : Outcome alpha R :=
  let result : R := default
  let req :=
    (((((((restPatch pt).UseProtobufAsDefaultIfPreferred
      c.prefersProtobuf).NamespaceIfScoped c.ns (c.ns != "")).Resource
      c.resource).Name name).SubResource subresources).VersionedParams
      (.patch opts)).BodyBytes data
  runInto transport req result

/-- Modelled from the spec: `apply.NewRequest` (k8s.io/client-go/util/apply,
not under `src/`) builds the initial request for server-side apply — "The
request always uses the apply-patch type"; the body is the marshalled
configuration, and marshalling may fail (`marshal` is the external encoder,
a parameter). -/
def applyNewRequest {C alpha : Type} (marshal : C → Except GoError (List Nat))
    (obj : C) : Except GoError (Request alpha) :=
  match marshal obj with
  | .error e => .error e
  | .ok data => .ok ((restPatch .ApplyPatchType).BodyBytes data)

/-- Models gentype2.ApplySubresource: validates the configuration against
its zero value, converts the apply options to patch options, builds the
apply request via `apply.NewRequest`, and executes it under
resource/namespace/parentName/subresources. -/
def ApplySubresource {C alpha R : Type} [DecidableEq C] [Inhabited C] [Inhabited R]
    (c : UntypedClient) (transport : Request alpha → Except GoError R)
    (marshal : C → Except GoError (List Nat)) (parentName : String) (obj : C)
    (opts : ApplyOptions) (subresources : List String) : Outcome alpha R :=
  let result : R := default
  if obj = default then
    ⟨default, some ⟨"object provided to ApplySubresource must not be nil"⟩, []⟩
  else
    let patchOpts := opts.toPatchOptions
    match (applyNewRequest marshal obj : Except GoError (Request alpha)) with
    | .error e => ⟨default, some e, []⟩
    | .ok request =>
      let req :=
        ((((((request.UseProtobufAsDefaultIfPreferred
          c.prefersProtobuf).NamespaceIfScoped c.ns (c.ns != "")).Resource
          c.resource).Name parentName).SubResource subresources).VersionedParams
          (.patch patchOpts))
      runInto transport req result

/-- Models gentype2.Apply: validates that the configuration is not the zero
value and that its GetName() accessor (the `getName` parameter, from the
namedObject constraint) is non-nil, then delegates to ApplySubresource with
no subresources. -/
def Apply {C alpha R : Type} [DecidableEq C] [Inhabited C] [Inhabited R]
    (c : UntypedClient) (transport : Request alpha → Except GoError R)
    (marshal : C → Except GoError (List Nat)) (getName : C → Option String)
    (obj : C) (opts : ApplyOptions) : Outcome alpha R :=
  if obj = default then
    ⟨default, some ⟨"object provided to Apply must not be nil"⟩, []⟩
  else
    match getName obj with
    | none => ⟨default, some ⟨"obj.Name must be provided to Apply"⟩, []⟩
    | some n => ApplySubresource c transport marshal n obj opts []

/-- Models gentype2.ApplyStatus: validates like Apply (with messages naming
ApplyStatus), then delegates to ApplySubresource targeting the "status"
subresource. -/
def ApplyStatus {C alpha R : Type} [DecidableEq C] [Inhabited C] [Inhabited R]
    (c : UntypedClient) (transport : Request alpha → Except GoError R)
    (marshal : C → Except GoError (List Nat)) (getName : C → Option String)
    (obj : C) (opts : ApplyOptions) : Outcome alpha R :=
  if obj = default then
    ⟨default, some ⟨"object provided to ApplyStatus must not be nil"⟩, []⟩
  else
    match getName obj with
    | none => ⟨default, some ⟨"obj.Name must be provided to ApplyStatus"⟩, []⟩
    | some n => ApplySubresource c transport marshal n obj opts ["status"]

/-- TypeClient from the legacy generic package (src/unnamed/part_000):
immutable request coordinates (the rest.Interface handle, the parameter
codec and the empty-object creator are external collaborators). -/
structure TypeClient where
  Resource : String
  Namespace : String
deriving DecidableEq, Repr

/-- Models list from the legacy generic package (src/unnamed/part_000):
GET with namespace scoping, resource, versioned list options and timeout
derived from TimeoutSeconds; the fresh result comes from the injected
`newList` creator; no protobuf-preference builder call is made. -/
def genericList {alpha L : Type} (client : TypeClient) (newList : Unit → L)
    (transport : Request alpha → Except GoError L) (opts : ListOptions) :
    Outcome alpha L :=
  let l := newList ()
  let timeout := toDuration opts.timeoutSeconds
  let req :=
    ((((restGet.NamespaceIfScoped client.Namespace
      (client.Namespace != "")).Resource client.Resource).VersionedParams
      (.list opts)).Timeout timeout)
  runInto transport req l

/-- Object metadata of a fake-store item (the part the label filter reads). -/
structure ObjMeta where
  name : String := ""
  labels : List (String × String) := []
deriving DecidableEq, Repr

/-- A type-erased item held in a fake list.  `meta` is `none` when
`meta.Accessor` fails on the item (no object metadata); items produced by
well-typed fake clients always carry metadata, but the source keeps the
failure branch and so does the model. -/
structure FakeItem where
  meta : Option ObjMeta := none
deriving DecidableEq, Repr

/-- List-level metadata of a fake list (continuation token, resource
version). -/
structure FakeListMeta where
  resourceVersion : String := ""
  continueToken : String := ""
deriving DecidableEq, Repr

/-- A fake list object: list-level metadata plus items. -/
structure FakeList where
  listMeta : FakeListMeta := {}
  items : List FakeItem := []
deriving DecidableEq, Repr

instance : Inhabited FakeList := ⟨{}⟩

/-- A parsed label selector, as a conjunction of key=value requirements. -/
abbrev LabelSelector := List (String × String)

/-- Split a character list on a separator (a structurally recursive
splitter, used by the modelled selector parser). -/
def splitOnChar (sep : Char) : List Char → List (List Char)
  | [] => [[]]
  | c :: cs =>
    let rest := splitOnChar sep cs
    if c = sep then [] :: rest
    else
      match rest with
      | [] => [[c]]
      | r :: rs => (c :: r) :: rs

/-- Modelled from the spec: parsing of the label-selector string (done
inside `testing.ExtractFromListOptions`, not under `src/`) into key=value
requirements. -/
def parseLabelSelector (s : String) : LabelSelector :=
  (splitOnChar ',' s.toList).filterMap fun kv =>
    match splitOnChar '=' kv with
    | [k, v] => some (⟨k⟩, ⟨v⟩)
    | _ => none

/-- Modelled from the spec: `testing.ExtractFromListOptions` (package
k8s.io/client-go/testing, not under `src/`) yields the label selector from
the list options — nil when no label selector is set, so that "Everything
matches". -/
def extractLabelFromListOptions (opts : ListOptions) : Option LabelSelector :=
  if opts.labelSelector = "" then none
  else some (parseLabelSelector opts.labelSelector)

/-- Modelled from the spec: `label.Matches(labels.Set(itemMeta.GetLabels()))`
(package k8s.io/apimachinery/pkg/labels, not under `src/`) — every
requirement of the selector must hold of the item's label set. -/
def labelMatches (sel : LabelSelector) (ls : List (String × String)) : Bool :=
  sel.all fun kv => ls.lookup kv.1 == some kv.2

/-- schema.GroupVersionResource (external data shape). -/
structure GroupVersionResource where
  group : String := ""
  version : String := ""
  resource : String := ""
deriving DecidableEq, Repr

/-- schema.GroupVersionKind (external data shape). -/
structure GroupVersionKind where
  group : String := ""
  version : String := ""
  kind : String := ""
deriving DecidableEq, Repr

/-- The action built by `testing.NewListActionWithOptions` and submitted to
the fake recorder. -/
structure FakeListAction where
  resource : GroupVersionResource
  kind : GroupVersionKind
  ns : String
  opts : ListOptions
deriving DecidableEq, Repr

/-- Models alsoFakeLister.List from the gentype2 fake client.  `invokes`
models `Fake.Invokes(action, defaultReturnObj)` (the external
action-recording fake): it returns the reaction's object (possibly nil) and
error.  `copyListMeta`, `getItems` and `setItems` are the injected
getter/setter fields of `alsoFakeLister`; the Go methods mutate their first
argument, modelled functionally by returning the updated list. -/
def fakeClientList
    (invokes : FakeListAction → FakeList → Option FakeList × Option GoError)
    (copyListMeta : FakeList → FakeList → FakeList)
    (getItems : FakeList → List FakeItem)
    (setItems : FakeList → List FakeItem → FakeList)
    (resource : GroupVersionResource) (kind : GroupVersionKind) (ns : String)
    (opts : ListOptions) : FakeList × Option GoError :=
  let emptyResult : FakeList := default
  let r := invokes ⟨resource, kind, ns, opts⟩ emptyResult
  match r.1 with
  | none => (emptyResult, r.2)
  | some obj =>
    match extractLabelFromListOptions opts with
    | none => (obj, none)
    | some label =>
      let l := copyListMeta default obj
      let items := (getItems obj).filter fun item =>
        match item.meta with
        | none => false
        | some m => labelMatches label m.labels
      (setItems l items, r.2)

/-- The list-metadata copier that generated fake clients inject
(`func(dst, src *XList) { dst.ListMeta = src.ListMeta }`). -/
def stdCopyListMeta (dst src : FakeList) : FakeList :=
  { dst with listMeta := src.listMeta }

/-- The item getter that generated fake clients inject. -/
def stdGetItems (l : FakeList) : List FakeItem := l.items

/-- The item setter that generated fake clients inject. -/
def stdSetItems (l : FakeList) (items : List FakeItem) : FakeList :=
  { l with items := items }

/-- A small concrete apply declarative-configuration type (name-bearing and
comparable), used to instantiate the generic definitions at concrete
inputs.  Its zero value has a nil name, like generated apply
configurations. -/
structure TestConfig where
  name : Option String := none
  value : Nat := 0
deriving DecidableEq, Repr

instance : Inhabited TestConfig := ⟨{}⟩

theorem runInto_issued {alpha R : Type} (t : Request alpha → Except GoError R)
    (req : Request alpha) (fresh : R) : (runInto t req fresh).issued = [req] := by
  unfold runInto
  rcases t req <;> rfl

theorem runInto_result_of_err {alpha R : Type} (t : Request alpha → Except GoError R)
    (req : Request alpha) (fresh : R)
    (h : (runInto t req fresh).err.isSome = true) :
    (runInto t req fresh).result = fresh := by
  unfold runInto at h ⊢
  rcases ht : t req with v | e <;> simp [ht] at h ⊢

theorem listThenCheck_eq {alpha L del : Type} [Inhabited L] (c : UntypedClient)
    (transport : Request alpha → Except GoError L)
    (checkList : String → (ListOptions → Outcome alpha L) → ListOptions → L → del)
    (opts : ListOptions) :
    listThenCheck c transport checkList opts = list c transport opts := by
  unfold listThenCheck
  rcases h : (list c transport opts).err <;> simp [h]

/-- C1: for every List call via the generic client, whenever the watch-list
stage does not succeed — the derivation of watch-list options returns an
error, the derivation reports the request ineligible, or the watch-list
request itself returns an error — the standard list request is issued and
the caller observes exactly that standard list's result and error; the
watch-list stage's error is never returned to the caller. -/
theorem c1_watchlist_failure_falls_back_to_standard_list
    {alpha L gam del : Type} [Inhabited L] (c : UntypedClient)
    (transport : Request alpha → Except GoError L)
    (prepare : ListOptions → ListOptions × Bool × Option GoError)
    (cw : String → (ListOptions → Outcome alpha L) → ListOptions → L → gam)
    (cl : String → (ListOptions → Outcome alpha L) → ListOptions → L → del)
    (opts : ListOptions)
    (hfail : (prepare opts).2.2.isSome = true ∨ (prepare opts).2.1 = false ∨
      (watchList c transport (prepare opts).1).err.isSome = true) :
    (ListVerb c transport prepare cw cl opts).result = (list c transport opts).result
    ∧ (ListVerb c transport prepare cw cl opts).err = (list c transport opts).err
    ∧ ∀ r ∈ (list c transport opts).issued,
        r ∈ (ListVerb c transport prepare cw cl opts).issued := by
  rcases hpe : prepare opts with ⟨wlo, has, e⟩
  rw [hpe] at hfail
  rcases e with _ | e
  · cases has
    · simp [ListVerb, hpe, listThenCheck_eq]
    · simp only at hfail
      simp only [Option.isSome_none, Bool.false_eq_true, false_or, or_false] at hfail
      rcases hw : (watchList c transport wlo).err with _ | we
      · rw [hw] at hfail
        simp at hfail
      · refine ⟨?_, ?_, ?_⟩ <;>
          simp [ListVerb, hpe, hw, listThenCheck_eq]
        exact fun r hr => Or.inr hr
  · simp [ListVerb, hpe, listThenCheck_eq]

/-- C1 witness: with a derivation that fails, the orchestrated List call
observes exactly the standard list's result on a concrete client,
transport and options. -/
theorem c1_watchlist_failure_falls_back_witness :
    (ListVerb ⟨"pods", "ns1", false⟩
        (fun _ => .ok 5 : Request Nat → Except GoError Nat)
        (fun _ => ({}, false, some ⟨"bad selector"⟩)) (fun _ _ _ _ => (0 : Nat))
        (fun _ _ _ _ => (0 : Nat)) {}).result
      = (list ⟨"pods", "ns1", false⟩
          (fun _ => .ok 5 : Request Nat → Except GoError Nat) {}).result :=
  (c1_watchlist_failure_falls_back_to_standard_list ⟨"pods", "ns1", false⟩
    (fun _ => .ok 5 : Request Nat → Except GoError Nat)
    (fun _ => ({}, false, some ⟨"bad selector"⟩))
    (fun _ _ _ _ => (0 : Nat)) (fun _ _ _ _ => (0 : Nat)) {} (Or.inl rfl)).1

theorem list_result_of_err {alpha L : Type} [Inhabited L] (c : UntypedClient)
    (t : Request alpha → Except GoError L) (opts : ListOptions)
    (h : (list c t opts).err.isSome = true) : (list c t opts).result = default :=
  runInto_result_of_err _ _ _ h

theorem ListVerb_result_of_err {alpha L gam del : Type} [Inhabited L] (c : UntypedClient)
    (transport : Request alpha → Except GoError L)
    (prepare : ListOptions → ListOptions × Bool × Option GoError)
    (cw : String → (ListOptions → Outcome alpha L) → ListOptions → L → gam)
    (cl : String → (ListOptions → Outcome alpha L) → ListOptions → L → del)
    (opts : ListOptions)
    (h : (ListVerb c transport prepare cw cl opts).err.isSome = true) :
    (ListVerb c transport prepare cw cl opts).result = default := by
  rcases hpe : prepare opts with ⟨wlo, has, e⟩
  rcases e with _ | e <;> cases has <;>
    simp only [ListVerb, hpe, listThenCheck_eq] at h ⊢
  · exact list_result_of_err _ _ _ h
  · rcases hw : (watchList c transport wlo).err with _ | we
    · simp [hw] at h
    · simp only [hw] at h ⊢
      exact list_result_of_err _ _ _ h
  · exact list_result_of_err _ _ _ h
  · exact list_result_of_err _ _ _ h

/-- C2: for every verb call on the generic client (Get, List, Create,
Update, Patch, and their subresource variants), a fresh zero-valued result
object is allocated before the request is issued, and when the call returns
a non-nil error the object returned alongside it is that zero value (a
non-nil pointer to a zero-valued object, modelled as `default`), never nil
and never a stale or partially populated instance. -/
theorem c2_fresh_zero_value_on_error {alpha R L gam del : Type}
    [Inhabited alpha] [Inhabited R] [Inhabited L] (c : UntypedClient)
    (tR : Request alpha → Except GoError R)
    (tL : Request alpha → Except GoError L)
    (tA : Request alpha → Except GoError alpha)
    (prepare : ListOptions → ListOptions × Bool × Option GoError)
    (cw : String → (ListOptions → Outcome alpha L) → ListOptions → L → gam)
    (cl : String → (ListOptions → Outcome alpha L) → ListOptions → L → del) :
    (∀ name options, (Get c tR name options).err.isSome = true →
      (Get c tR name options).result = default)
    ∧ (∀ parentName options subs,
        (GetSubresource c tR parentName options subs).err.isSome = true →
        (GetSubresource c tR parentName options subs).result = default)
    ∧ (∀ opts, (ListVerb c tL prepare cw cl opts).err.isSome = true →
        (ListVerb c tL prepare cw cl opts).result = default)
    ∧ (∀ opts, (list c tL opts).err.isSome = true →
        (list c tL opts).result = default)
    ∧ (∀ parentName opts subs,
        (ListSubresource c tL parentName opts subs).err.isSome = true →
        (ListSubresource c tL parentName opts subs).result = default)
    ∧ (∀ obj opts, (Create c tR obj opts).err.isSome = true →
        (Create c tR obj opts).result = default)
    ∧ (∀ parentName obj opts subs,
        (CreateSubresource c tR parentName obj opts subs).err.isSome = true →
        (CreateSubresource c tR parentName obj opts subs).result = default)
    ∧ (∀ getName obj opts, (Update c tR getName obj opts).err.isSome = true →
        (Update c tR getName obj opts).result = default)
    ∧ (∀ parentName obj opts subs,
        (UpdateSubresource c tR parentName obj opts subs).err.isSome = true →
        (UpdateSubresource c tR parentName obj opts subs).result = default)
    ∧ (∀ getName obj opts, (UpdateStatus c tA getName obj opts).err.isSome = true →
        (UpdateStatus c tA getName obj opts).result = default)
    ∧ (∀ name pt data opts subs,
        (Patch c tR name pt data opts subs).err.isSome = true →
        (Patch c tR name pt data opts subs).result = default) := by
  refine ⟨fun name options h => runInto_result_of_err _ _ _ h,
    fun parentName options subs h => runInto_result_of_err _ _ _ h,
    fun opts h => ListVerb_result_of_err _ _ _ _ _ _ h,
    fun opts h => runInto_result_of_err _ _ _ h,
    fun parentName opts subs h => runInto_result_of_err _ _ _ h,
    fun obj opts h => runInto_result_of_err _ _ _ h,
    fun parentName obj opts subs h => runInto_result_of_err _ _ _ h,
    fun getName obj opts h => runInto_result_of_err _ _ _ h,
    fun parentName obj opts subs h => runInto_result_of_err _ _ _ h,
    fun getName obj opts h => runInto_result_of_err _ _ _ h,
    fun name pt data opts subs h => runInto_result_of_err _ _ _ h⟩

/-- C2 witness: on a transport that always fails, concrete Get and Patch
calls return the zero value alongside the error. -/
theorem c2_fresh_zero_value_on_error_witness :
    (Get ⟨"pods", "ns1", false⟩
        (fun _ => .error ⟨"boom"⟩ : Request Nat → Except GoError Nat)
        "x" {}).result = default
    ∧ (Patch ⟨"pods", "ns1", false⟩
        (fun _ => .error ⟨"boom"⟩ : Request Nat → Except GoError Nat)
        "x" .MergePatchType [1, 2] {} []).result = default := by
  have h := c2_fresh_zero_value_on_error ⟨"pods", "ns1", false⟩
    (fun _ => .error ⟨"boom"⟩ : Request Nat → Except GoError Nat)
    (fun _ => .error ⟨"boom"⟩ : Request Nat → Except GoError Nat)
    (fun _ => .error ⟨"boom"⟩ : Request Nat → Except GoError Nat)
    (fun o => (o, false, none))
    (fun _ _ _ _ => (0 : Nat)) (fun _ _ _ _ => (0 : Nat))
  exact ⟨h.1 "x" {} rfl,
    h.2.2.2.2.2.2.2.2.2.2 "x" .MergePatchType [1, 2] {} [] rfl⟩

/-- C4: for every List call where the watch-list request succeeds, List
returns the watch-list result with a nil error, and the consistency check
never blocks or alters the returned value or error — the returned
(result, error) pair is the same for any two consistency-check
collaborators (hence whether or not the check runs or what it reports). -/
theorem c4_watchlist_success_returns_result_check_observational
    {alpha L gam del gam2 del2 : Type} [Inhabited L] (c : UntypedClient)
    (transport : Request alpha → Except GoError L)
    (prepare : ListOptions → ListOptions × Bool × Option GoError)
    (cw : String → (ListOptions → Outcome alpha L) → ListOptions → L → gam)
    (cl : String → (ListOptions → Outcome alpha L) → ListOptions → L → del)
    (cw2 : String → (ListOptions → Outcome alpha L) → ListOptions → L → gam2)
    (cl2 : String → (ListOptions → Outcome alpha L) → ListOptions → L → del2)
    (opts : ListOptions)
    (hprep : (prepare opts).2.2 = none) (hhas : (prepare opts).2.1 = true)
    (hw : (watchList c transport (prepare opts).1).err = none) :
    (ListVerb c transport prepare cw cl opts).result
      = (watchList c transport (prepare opts).1).result
    ∧ (ListVerb c transport prepare cw cl opts).err = none
    ∧ ListVerb c transport prepare cw cl opts
      = ListVerb c transport prepare cw2 cl2 opts := by
  rcases hpe : prepare opts with ⟨wlo, has, e⟩
  rw [hpe] at hprep hhas hw
  simp only at hprep hhas hw
  subst hprep hhas
  refine ⟨?_, ?_, ?_⟩ <;>
    simp [ListVerb, hpe, hw, listThenCheck_eq]

/-- C4 witness: with an eligible derivation and a transport that answers
the watch-list request successfully, the concrete List call returns the
watch-list result with no error. -/
theorem c4_watchlist_success_witness :
    (ListVerb ⟨"pods", "ns1", false⟩
        (fun _ => .ok 7 : Request Nat → Except GoError Nat)
        (fun o => (o, true, none)) (fun _ _ _ _ => (0 : Nat))
        (fun _ _ _ _ => (0 : Nat)) {}).err = none :=
  (c4_watchlist_success_returns_result_check_observational
    ⟨"pods", "ns1", false⟩
    (fun _ => .ok 7 : Request Nat → Except GoError Nat)
    (fun o => (o, true, none))
    (fun _ _ _ _ => (0 : Nat)) (fun _ _ _ _ => (0 : Nat))
    (fun _ _ _ _ => true) (fun _ _ _ _ => true) {} rfl rfl rfl).2.1

/-- C3 counterexample: the claim asserts that ApplyStatus, invoked with the
zero-valued configuration, returns the error "object provided to Apply must
not be nil"; on the code the message names ApplyStatus instead, so the
claimed error value differs from the actual one at this concrete input. -/
theorem c3_counterexample_applystatus_message :
    (ApplyStatus ⟨"pods", "ns1", false⟩
        (fun _ => .error ⟨"transport called"⟩ : Request Nat → Except GoError Nat)
        (fun _ => .ok []) (fun cfg : TestConfig => cfg.name)
        default {}).err = some ⟨"object provided to ApplyStatus must not be nil"⟩
    ∧ (ApplyStatus ⟨"pods", "ns1", false⟩
        (fun _ => .error ⟨"transport called"⟩ : Request Nat → Except GoError Nat)
        (fun _ => .ok []) (fun cfg : TestConfig => cfg.name)
        default {}).err ≠ some ⟨"object provided to Apply must not be nil"⟩ := by
  constructor
  · rfl
  · decide

/-- C3 (amended): for every Apply and ApplyStatus call, if the
configuration argument equals the zero value of its type, or its GetName()
accessor returns nil, the call returns a local error naming the called
operation (Apply: "object provided to Apply must not be nil" /
"obj.Name must be provided to Apply"; ApplyStatus: "object provided to
ApplyStatus must not be nil" / "obj.Name must be provided to ApplyStatus")
together with a zero-valued result, and no request is issued through the
transport (the issued trace is empty, for every transport). -/
theorem c3_amended_apply_validation {C alpha R : Type} [DecidableEq C]
    [Inhabited C] [Inhabited R] (c : UntypedClient)
    (t : Request alpha → Except GoError R)
    (marshal : C → Except GoError (List Nat)) (getName : C → Option String)
    (opts : ApplyOptions) :
    Apply c t marshal getName (default : C) opts
      = ⟨default, some ⟨"object provided to Apply must not be nil"⟩, []⟩
    ∧ (∀ obj : C, obj ≠ default → getName obj = none →
        Apply c t marshal getName obj opts
          = ⟨default, some ⟨"obj.Name must be provided to Apply"⟩, []⟩)
    ∧ ApplyStatus c t marshal getName (default : C) opts
      = ⟨default, some ⟨"object provided to ApplyStatus must not be nil"⟩, []⟩
    ∧ (∀ obj : C, obj ≠ default → getName obj = none →
        ApplyStatus c t marshal getName obj opts
          = ⟨default, some ⟨"obj.Name must be provided to ApplyStatus"⟩, []⟩) := by
  refine ⟨?_, ?_, ?_, ?_⟩
  · simp [Apply]
  · intro obj hne hname
    simp [Apply, hne, hname]
  · simp [ApplyStatus]
  · intro obj hne hname
    simp [ApplyStatus, hne, hname]

/-- C3 witness: a concrete Apply call whose configuration is non-zero but
has a nil name returns the local name error with a zero result and an empty
issued trace. -/
theorem c3_amended_apply_validation_witness :
    Apply ⟨"pods", "ns1", false⟩
        (fun _ => .error ⟨"transport called"⟩ : Request Nat → Except GoError Nat)
        (fun _ => .ok []) (fun cfg : TestConfig => cfg.name)
        ⟨none, 1⟩ {}
      = ⟨default, some ⟨"obj.Name must be provided to Apply"⟩, []⟩ := by
  have h := c3_amended_apply_validation ⟨"pods", "ns1", false⟩
    (fun _ => .error ⟨"transport called"⟩ : Request Nat → Except GoError Nat)
    (fun _ => .ok []) (fun cfg : TestConfig => cfg.name) {}
  exact h.2.1 ⟨none, 1⟩ (by decide) rfl

/-- C5: for every UpdateStatus call, the request is a PUT whose path name
segment is obtained from the input object's own name accessor (GetName(),
modelled by `getName`), targets the "status" subresource, and the call is
exactly UpdateSubresource instantiated so that the returned value has the
parent resource's type (the statement type-checks with `Outcome alpha
alpha`: input object and result share the type `alpha`), not a status-only
type. -/
theorem c5_updatestatus_request_shape {alpha : Type} [Inhabited alpha]
    (c : UntypedClient) (t : Request alpha → Except GoError alpha)
    (getName : alpha → String) (obj : alpha) (opts : UpdateOptions) :
    UpdateStatus c t getName obj opts
      = UpdateSubresource c t (getName obj) obj opts ["status"]
    ∧ ∃ req, (UpdateStatus c t getName obj opts).issued = [req]
        ∧ req.verb = .put
        ∧ req.name = some (getName obj)
        ∧ req.subresources = ["status"]
        ∧ req.body = .obj obj
        ∧ req.params = .update opts := by
  refine ⟨rfl, ?_⟩
  refine ⟨_, runInto_issued _ _ _, ?_, ?_, ?_, ?_, ?_⟩ <;> rfl

/-- C7: for every DeleteCollection call, if the list options carry
TimeoutSeconds = N (non-nil), the timeout applied to the request equals
exactly N seconds (N * 1 second, with Go's int64 multiplication); if
TimeoutSeconds is nil, the applied timeout is the zero duration. -/
theorem c7_deletecollection_timeout {alpha : Type} (c : UntypedClient)
    (t : Request alpha → Option GoError) (opts : DeleteOptions)
    (listOpts : ListOptions) :
    ∃ req, (DeleteCollection c t opts listOpts).2 = [req]
      ∧ (∀ n, listOpts.timeoutSeconds = some n →
          req.timeout = int64Wrap (n * oneSecond))
      ∧ (listOpts.timeoutSeconds = none → req.timeout = 0) := by
  refine ⟨_, rfl, ?_, ?_⟩
  · intro n hn
    show toDuration listOpts.timeoutSeconds = _
    rw [hn]
    rfl
  · intro hn
    show toDuration listOpts.timeoutSeconds = _
    rw [hn]
    rfl

/-- C7 witness: with a concrete timeout of 7 seconds the issued request
carries exactly 7 * 1s (in nanoseconds); with no timeout it carries 0. -/
theorem c7_deletecollection_timeout_witness :
    ((DeleteCollection ⟨"pods", "ns1", false⟩
        (fun _ => none : Request Nat → Option GoError) {}
        { timeoutSeconds := some 7 }).2.map Request.timeout)
      = [int64Wrap (7 * oneSecond)]
    ∧ ((DeleteCollection ⟨"pods", "ns1", false⟩
        (fun _ => none : Request Nat → Option GoError) {}
        {}).2.map Request.timeout) = [0] := by
  constructor
  · obtain ⟨req, h1, h2, h3⟩ := c7_deletecollection_timeout
      ⟨"pods", "ns1", false⟩ (fun _ => none : Request Nat → Option GoError) {}
      { timeoutSeconds := some 7 }
    rw [h1, List.map_cons, List.map_nil, h2 7 rfl]
  · obtain ⟨req, h1, h2, h3⟩ := c7_deletecollection_timeout
      ⟨"pods", "ns1", false⟩ (fun _ => none : Request Nat → Option GoError) {} {}
    rw [h1, List.map_cons, List.map_nil, h3 rfl]

/-- C8: for every Watch call, the options sent on the request have the
Watch flag set to true regardless of the caller-supplied value, the request
timeout is derived from TimeoutSeconds exactly as for List (the standard
list request for the same options carries the same timeout), and the
caller's options value is otherwise forwarded unchanged (the request
parameters are exactly the caller's options with only the watch flag
forced). -/
theorem c8_watch_forces_watch_flag {alpha W L : Type} [Inhabited L]
    (c : UntypedClient) (tW : Request alpha → Except GoError W)
    (tL : Request alpha → Except GoError L) (opts : ListOptions) :
    ∃ req, (Watch c tW opts).2 = [req]
      ∧ req.params = .list { opts with watch := true }
      ∧ req.timeout = toDuration opts.timeoutSeconds
      ∧ req.mode = .watchCall
      ∧ (Watch c tW opts).1 = tW req
      ∧ (list c tL opts).issued.map Request.timeout
          = [toDuration opts.timeoutSeconds] := by
  refine ⟨_, rfl, rfl, rfl, rfl, rfl, ?_⟩
  simp only [list]
  rw [runInto_issued]
  rfl

/-- C9: with protobuf preference disabled and matching client coordinates,
the legacy generic package's standard list function and the gentype2
package's standard list function build the same request (same verb,
namespace scoping, resource, versioned parameters and timeout derivation)
and return the same (result, error) pair for the same transport behaviour
(here: the whole outcomes, issued request included, coincide), provided the
legacy empty-list creator produces the zero value. -/
theorem c9_generic_gentype2_list_equivalence {alpha L : Type} [Inhabited L]
    (tc : TypeClient) (c : UntypedClient) (newList : Unit → L)
    (transport : Request alpha → Except GoError L) (opts : ListOptions)
    (hpb : c.prefersProtobuf = false) (hres : c.resource = tc.Resource)
    (hns : c.ns = tc.Namespace) (hnew : newList () = default) :
    genericList tc newList transport opts = list c transport opts := by
  rcases c with ⟨cres, cns, cpb⟩
  simp only at hpb hres hns
  subst hpb hres hns
  simp [genericList, list, hnew, restGet, Request.UseProtobufAsDefaultIfPreferred,
    Request.NamespaceIfScoped, Request.Resource, Request.VersionedParams,
    Request.Timeout]

/-- C9 witness: at concrete matching coordinates the two list functions
coincide. -/
theorem c9_generic_gentype2_list_equivalence_witness :
    genericList ⟨"pods", "ns1"⟩ (fun _ => (0 : Nat))
        (fun _ => .ok 3 : Request Nat → Except GoError Nat) {}
      = list ⟨"pods", "ns1", false⟩
          (fun _ => .ok 3 : Request Nat → Except GoError Nat) {} :=
  c9_generic_gentype2_list_equivalence ⟨"pods", "ns1"⟩ ⟨"pods", "ns1", false⟩
    (fun _ => (0 : Nat)) (fun _ => .ok 3 : Request Nat → Except GoError Nat) {}
    rfl rfl rfl rfl

/-- C6: for every fake-client List call with a non-empty label selector in
the options, the returned list contains exactly those items of the
recorder's unfiltered list whose labels match the selector (items without
object metadata are excluded), and the list-level metadata of the returned
list is copied from the unfiltered list; when no label selector is set, the
recorder's list is returned unmodified. -/
theorem c6_fake_list_label_filtering
    (invokes : FakeListAction → FakeList → Option FakeList × Option GoError)
    (resource : GroupVersionResource) (kind : GroupVersionKind) (ns : String)
    (opts : ListOptions) (obj : FakeList) (err : Option GoError)
    (hinv : invokes ⟨resource, kind, ns, opts⟩ default = (some obj, err)) :
    (opts.labelSelector ≠ "" →
      fakeClientList invokes stdCopyListMeta stdGetItems stdSetItems
          resource kind ns opts
        = (⟨obj.listMeta,
            obj.items.filter fun item =>
              match item.meta with
              | none => false
              | some m =>
                labelMatches (parseLabelSelector opts.labelSelector) m.labels⟩,
          err))
    ∧ (opts.labelSelector = "" →
      (fakeClientList invokes stdCopyListMeta stdGetItems stdSetItems
          resource kind ns opts).1 = obj) := by
  constructor
  · intro hne
    simp [fakeClientList, hinv, extractLabelFromListOptions, hne,
      stdCopyListMeta, stdGetItems, stdSetItems]
  · intro heq
    simp [fakeClientList, hinv, extractLabelFromListOptions, heq]

/-- C6 witness: with the recorder returning a two-item list of which only
one item's labels match the selector "k=v", the returned list keeps exactly
that item and the unfiltered list's metadata. -/
theorem c6_fake_list_label_filtering_witness :
    fakeClientList
        (fun _ _ => (some ⟨⟨"rv1", "tok"⟩,
          [⟨some ⟨"a", [("k", "v")]⟩⟩, ⟨some ⟨"b", []⟩⟩]⟩, none))
        stdCopyListMeta stdGetItems stdSetItems {} {} "ns1"
        { labelSelector := "k=v" }
      = (⟨⟨"rv1", "tok"⟩, [⟨some ⟨"a", [("k", "v")]⟩⟩]⟩, none) := by
  have h := (c6_fake_list_label_filtering
    (fun _ _ => (some ⟨⟨"rv1", "tok"⟩,
      [⟨some ⟨"a", [("k", "v")]⟩⟩, ⟨some ⟨"b", []⟩⟩]⟩, none))
    {} {} "ns1" { labelSelector := "k=v" }
    ⟨⟨"rv1", "tok"⟩, [⟨some ⟨"a", [("k", "v")]⟩⟩, ⟨some ⟨"b", []⟩⟩]⟩ none rfl).1
    (by decide)
  rw [h]
  decide

/-- C10: for every fake-client List call in which the recorder returns a
non-nil list object together with a non-nil error: if the options carry no
label selector the error is discarded and the caller receives the object
with a nil error, whereas if a label selector is set the recorder's error
is returned alongside the filtered list. -/
theorem c10_fake_list_error_discard
    (invokes : FakeListAction → FakeList → Option FakeList × Option GoError)
    (resource : GroupVersionResource) (kind : GroupVersionKind) (ns : String)
    (opts : ListOptions) (obj : FakeList) (e : GoError)
    (hinv : invokes ⟨resource, kind, ns, opts⟩ default = (some obj, some e)) :
    (opts.labelSelector = "" →
      fakeClientList invokes stdCopyListMeta stdGetItems stdSetItems
          resource kind ns opts = (obj, none))
    ∧ (opts.labelSelector ≠ "" →
      (fakeClientList invokes stdCopyListMeta stdGetItems stdSetItems
          resource kind ns opts).2 = some e) := by
  constructor
  · intro heq
    simp [fakeClientList, hinv, extractLabelFromListOptions, heq]
  · intro hne
    simp [fakeClientList, hinv, extractLabelFromListOptions, hne]

/-- C10 witness: a recorder returning both an object and an error — with no
selector the error is discarded; with a selector it is propagated. -/
theorem c10_fake_list_error_discard_witness :
    fakeClientList
        (fun _ _ => (some ⟨⟨"rv1", "tok"⟩, [⟨some ⟨"a", []⟩⟩]⟩, some ⟨"lerr"⟩))
        stdCopyListMeta stdGetItems stdSetItems {} {} "ns1" {}
      = (⟨⟨"rv1", "tok"⟩, [⟨some ⟨"a", []⟩⟩]⟩, none)
    ∧ (fakeClientList
        (fun _ _ => (some ⟨⟨"rv1", "tok"⟩, [⟨some ⟨"a", []⟩⟩]⟩, some ⟨"lerr"⟩))
        stdCopyListMeta stdGetItems stdSetItems {} {} "ns1"
        { labelSelector := "k=v" }).2 = some ⟨"lerr"⟩ := by
  constructor
  · exact (c10_fake_list_error_discard
      (fun _ _ => (some ⟨⟨"rv1", "tok"⟩, [⟨some ⟨"a", []⟩⟩]⟩, some ⟨"lerr"⟩))
      {} {} "ns1" {} ⟨⟨"rv1", "tok"⟩, [⟨some ⟨"a", []⟩⟩]⟩ ⟨"lerr"⟩ rfl).1 rfl
  · exact (c10_fake_list_error_discard
      (fun _ _ => (some ⟨⟨"rv1", "tok"⟩, [⟨some ⟨"a", []⟩⟩]⟩, some ⟨"lerr"⟩))
      {} {} "ns1" { labelSelector := "k=v" }
      ⟨⟨"rv1", "tok"⟩, [⟨some ⟨"a", []⟩⟩]⟩ ⟨"lerr"⟩ rfl).2 (by decide)
